import Mathlib

/-!
Shallow embedding of the Dr. Emanuel's Wonderland single-page application
(React component `App` plus its helper functions) for verifying the
natural-language specification against the code.

Modelling conventions:
  * JavaScript strings are Lean `String`s; a JS value that may be
    `undefined`/`null` is an `Option`.
  * JS truthiness on optional strings (`!x` style checks) is `jsTruthy`:
    `undefined`, `null` and the empty string are falsy.
  * `String.prototype.trim` is `jsTrim`: whitespace stripped from both ends.
  * Times are integer milliseconds since the epoch (`Int`); the server
    timestamp assigned to a created document is an explicit `Nat` argument.
  * A Firestore write (`addDoc` / `setDoc`) either succeeds or fails; the
    outcome is an explicit `WriteResult` argument threaded through each
    save handler, and the handler's `catch` branch is the `failure` case.
  * React `useState` state lives in one record `AppState`; each event
    handler is a function `AppState → ...` returning the updated state
    together with the list of messages shown via `showAppMessage` and the
    number of store writes attempted.
-/

/-- JS truthiness of a possibly-undefined string: `undefined` and `""` are falsy. -/
def jsTruthy : Option String → Bool
  | none => false
  | some s => !s.isEmpty

/-- `String.prototype.trim`: strip whitespace from both ends of the string. -/
def jsTrim (s : String) : String :=
  ⟨((s.data.dropWhile Char.isWhitespace).reverse.dropWhile Char.isWhitespace).reverse⟩

/-- Milliseconds per day, as written in the day-counter effect: `1000 * 60 * 60 * 24`. -/
def msPerDay : Nat := 1000 * 60 * 60 * 24

/-- A saved drawing document: `{ dataUrl, createdAt: serverTimestamp() }`. -/
structure DrawingDoc where
  dataUrl : String
  createdAt : Nat
deriving DecidableEq, Repr

/-- A saved letter document: `{ content, createdAt: serverTimestamp() }`. -/
structure LetterDoc where
  content : String
  createdAt : Nat
deriving DecidableEq, Repr

/-- A saved card document: `{ text, bgColor, createdAt: serverTimestamp() }`. -/
structure CardDoc where
  text : String
  bgColor : String
  createdAt : Nat
deriving DecidableEq, Repr

/-- A mood entry document: `{ mood, timestamp: serverTimestamp() }`. -/
structure MoodEntry where
  mood : String
  timestamp : Nat
deriving DecidableEq, Repr

/-- A photo document: `{ dataUrl, createdAt: serverTimestamp() }`. -/
structure PhotoDoc where
  dataUrl : String
  createdAt : Nat
deriving DecidableEq, Repr

/-- One synthesized fixture of `fetchGameSchedule`; `date` is a day number
(days since the epoch), so `today + 2` is the calendar day two days after today. -/
structure Game where
  id : Nat
  date : Int
  time : String
  opponent : String
  location : String
  competition : String
deriving DecidableEq, Repr

/-- One entry of the `cardTemplates` array. -/
structure CardTemplate where
  name : String
  text : String
  bgColor : String
deriving DecidableEq, Repr

/-- The Firebase configuration object; every field may be absent. -/
structure FirebaseConfig where
  apiKey : Option String
  authDomain : Option String
  projectId : Option String
  storageBucket : Option String
  messagingSenderId : Option String
  appId : Option String
deriving DecidableEq, Repr

/-- The empty object `{}` that `firebaseConfig` starts as. -/
def emptyConfig : FirebaseConfig := ⟨none, none, none, none, none, none⟩

/-- The `process.env.REACT_APP_FIREBASE_*` variables visible to the init effect. -/
structure EnvVars where
  apiKey : Option String
  authDomain : Option String
  projectId : Option String
  storageBucket : Option String
  messagingSenderId : Option String
  appId : Option String
deriving DecidableEq, Repr

/-- Outcome of the Firebase init effect: either `initializeApp` ran on a
resolved configuration, or the effect returned early after `showAppMessage`
with a blocking message (no initialization). -/
inductive InitOutcome where
  | initialized (cfg : FirebaseConfig)
  | blocked (msg : String)
deriving DecidableEq, Repr

/-- Result of an awaited Firestore write. -/
inductive WriteResult where
  | success
  | failure
deriving DecidableEq, Repr

/-- What the day-counter page renders below the save button. -/
inductive DaysDisplay where
  | countShown (n : Nat)
  | pastHint
  | unset
deriving DecidableEq, Repr

/-- The `useState` state of the `App` component that the verified handlers
touch, together with the per-user Firestore collections (`drawings`,
`letters`, `cards`, `moods`, `photos`) and the `daysCounter/data` singleton. -/
structure AppState where
  ready : Bool
  canvasData : String
  letterContent : String
  cardText : String
  cardBgColor : String
  currentMood : String
  startDate : Option String
  drawings : List DrawingDoc
  letters : List LetterDoc
  cards : List CardDoc
  moods : List MoodEntry
  daysCounterDoc : Option String
  photos : List PhotoDoc
  gameSchedule : List Game
  modalContent : Option String
deriving DecidableEq, Repr

/-- Result of running one event handler: the new state, the messages shown
via `showAppMessage` (in order), and the number of store writes attempted. -/
structure OpResult where
  state : AppState
  messages : List String
  writeAttempts : Nat
deriving DecidableEq, Repr

-- Message strings, verbatim from the source.

def initMsgSave : String := "Por favor, aguarde a inicialização para salvar."

def initMsgMood : String := "Por favor, aguarde a inicialização para registrar o humor."

def initMsgDate : String := "Por favor, aguarde a inicialização para salvar a data."

def initMsgPhoto : String := "Por favor, aguarde a inicialização para fazer upload de fotos."

def letterEmptyMsg : String := "A carta não pode estar vazia."

def cardEmptyMsg : String := "O cartão não pode estar vazio."

def selectDateMsg : String := "Por favor, selecione uma data."

def drawingSavedMsg : String := "Desenho salvo com sucesso!"

def drawingErrorMsg : String := "Erro ao salvar o desenho. Tente novamente."

def letterSavedMsg : String := "Carta salva com sucesso!"

def letterErrorMsg : String := "Erro ao salvar a carta. Tente novamente."

def cardSavedMsg : String := "Cartão salvo com sucesso!"

def cardErrorMsg : String := "Erro ao salvar o cartão. Tente novamente."

def moodRecordedMsg (mood : String) : String := "Humor registrado: " ++ mood

def moodErrorMsg : String := "Erro ao registrar o humor. Tente novamente."

def dateSavedMsg : String := "Data inicial salva com sucesso!"

def dateErrorMsg : String := "Erro ao salvar a data inicial. Tente novamente."

def photoAddedMsg : String := "Foto adicionada à galeria!"

def photoErrorMsg : String := "Erro ao adicionar a foto. Tente novamente."

def configMissingMsg : String :=
  "Erro: Configuração do Firebase ausente. O aplicativo pode não funcionar corretamente."

def configIncompleteMsg : String :=
  "Erro: Configuração do Firebase incompleta. O aplicativo pode não funcionar corretamente."

/-- The blank canvas after `clearCanvas` wipes the drawing surface. -/
def blankCanvas : String := ""

/-- The white default card background (`'#ffffff'`). -/
def whiteColor : String := "#ffffff"

/-!  Firebase configuration and initialization (the first `useEffect`). -/

/-- Builds the config the env branch assigns field by field from
`process.env.REACT_APP_FIREBASE_*`. -/
def configFromEnv (env : EnvVars) : FirebaseConfig :=
  ⟨env.apiKey, env.authDomain, env.projectId, env.storageBucket,
   env.messagingSenderId, env.appId⟩

/-- The init `useEffect`: resolve a configuration from the host-injected
`__firebase_config` (browser branch) or from `process.env` (non-browser
branch); return early with a blocking message when the config is missing or
lacks `apiKey`/`authDomain`; otherwise call `initializeApp` on it. -/
def firebaseInit (windowDefined : Bool) (hostConfig : Option FirebaseConfig)
    (processDefined : Bool) (env : EnvVars) : InitOutcome :=
  let resolved : Option FirebaseConfig :=
    if windowDefined then
      some (hostConfig.getD emptyConfig)
    else if processDefined && jsTruthy env.apiKey then
      some (configFromEnv env)
    else
      none
  match resolved with
  | none => InitOutcome.blocked configMissingMsg
  | some cfg =>
      if !(jsTruthy cfg.apiKey) || !(jsTruthy cfg.authDomain) then
        InitOutcome.blocked configIncompleteMsg
      else
        InitOutcome.initialized cfg

/-- The `onAuthStateChanged` callback. `user` is the already-signed-in user's
uid (if any); when there is none, the token exchange or anonymous sign-in is
awaited and `currentUserUid` is `firebaseAuth.currentUser?.uid` afterwards
(`none` when sign-in completed without yielding an identity); `randomId` is
the `crypto.randomUUID()` fallback. Returns the resulting `userId` and the
`isAuthReady` flag. -/
def authCallbackResult (user : Option String) (currentUserUid : Option String)
    (randomId : String) : String × Bool :=
  match user with
  | some uid => (uid, true)
  | none =>
      (if jsTruthy currentUserUid then currentUserUid.getD randomId else randomId, true)

/-!  Day counter (the `daysKnown` effect and the `daysCounter` page). -/

/-- The `daysKnown` effect: with a stored start date (milliseconds since the
epoch), `Math.ceil(Math.abs(today - start) / (1000*60*60*24))`; with no
stored date, `0`.  `Math.ceil` of the exact division is ceiling division,
written here as `(diff + (msPerDay - 1)) / msPerDay` on naturals. -/
def daysKnownOf (startMs : Option Int) (todayMs : Int) : Nat :=
  match startMs with
  | none => 0
  | some start => ((todayMs - start).natAbs + (msPerDay - 1)) / msPerDay

/-- The day-counter page render below the save button: the count is shown
only when `daysKnown > 0`; with a date set but `daysKnown === 0` a hint to
pick a past date is shown; with no date, neither element renders. -/
def daysCounterDisplay (startMs : Option Int) (todayMs : Int) : DaysDisplay :=
  if daysKnownOf startMs todayMs > 0 then
    DaysDisplay.countShown (daysKnownOf startMs todayMs)
  else if startMs.isSome then
    DaysDisplay.pastHint
  else
    DaysDisplay.unset

/-!  Game schedule (the `fetchGameSchedule` effect). -/

/-- `fetchGameSchedule`: synthesizes the three fixed fixtures at offsets
+2, +5 and +10 days from today, with hard-coded opponent, time, venue and
competition text, and stores them in local state only. -/
def fetchGameSchedule (today : Int) : List Game :=
  [ ⟨1, today + 2, "19:00", "Cruzeiro", "Mineirão", "Campeonato Brasileiro"⟩,
    ⟨2, today + 5, "21:30", "Flamengo", "Maracanã", "Copa do Brasil"⟩,
    ⟨3, today + 10, "16:00", "Grêmio", "Arena MRV", "Campeonato Brasileiro"⟩ ]

/-- The schedule effect at app load: `setGameSchedule(games)` — only the
local `gameSchedule` state changes, nothing is written to the store. -/
def loadGameSchedule (today : Int) (s : AppState) : AppState :=
  { s with gameSchedule := fetchGameSchedule today }

/-!  Creative studio: card templates, saves. -/

/-- The `cardTemplates` array, verbatim. -/
def cardTemplates : List CardTemplate :=
  [ ⟨"Padrão", "", "#ffffff"⟩,
    ⟨"Galo Doido", "Parabéns! Que a paixão pelo Galo te inspire sempre!", "#fcd34d"⟩,
    ⟨"Manto Sagrado", "Feliz Aniversário! Que a glória alvinegra esteja sempre com você!", "#000000"⟩,
    ⟨"Campo", "Que sua vida seja um campo de vitórias! Feliz Aniversário!", "#34d399"⟩ ]

/-- `applyCardTemplate`: `setCardText(template.text); setCardBgColor(template.bgColor)`. -/
def applyCardTemplate (template : CardTemplate) (s : AppState) : AppState :=
  { s with cardText := template.text, cardBgColor := template.bgColor }

/-- `saveDrawing`: guard on init; export the canvas and write it; on success
show the success message and clear the canvas, on failure show the error
message and leave everything else untouched. -/
def saveDrawing (now : Nat) (w : WriteResult) (s : AppState) : OpResult :=
  if !s.ready then
    ⟨{ s with modalContent := some initMsgSave }, [initMsgSave], 0⟩
  else
    match w with
    | WriteResult.success =>
        ⟨{ s with drawings := s.drawings ++ [⟨s.canvasData, now⟩],
                  modalContent := some drawingSavedMsg,
                  canvasData := blankCanvas }, [drawingSavedMsg], 1⟩
    | WriteResult.failure =>
        ⟨{ s with modalContent := some drawingErrorMsg }, [drawingErrorMsg], 1⟩

/-- `saveLetter`: guard on init; reject when `!letterContent.trim()`; else
write, and on success show the success message and clear the field, on
failure show the error message and leave the field untouched. -/
def saveLetter (now : Nat) (w : WriteResult) (s : AppState) : OpResult :=
  if !s.ready then
    ⟨{ s with modalContent := some initMsgSave }, [initMsgSave], 0⟩
  else if (jsTrim s.letterContent).isEmpty then
    ⟨{ s with modalContent := some letterEmptyMsg }, [letterEmptyMsg], 0⟩
  else
    match w with
    | WriteResult.success =>
        ⟨{ s with letters := s.letters ++ [⟨s.letterContent, now⟩],
                  modalContent := some letterSavedMsg,
                  letterContent := "" }, [letterSavedMsg], 1⟩
    | WriteResult.failure =>
        ⟨{ s with modalContent := some letterErrorMsg }, [letterErrorMsg], 1⟩

/-- `saveCard`: guard on init; reject when `!cardText.trim()`; else write,
and on success show the success message, clear the text and reset the
background to white, on failure show the error message and leave both
untouched. -/
def saveCard (now : Nat) (w : WriteResult) (s : AppState) : OpResult :=
  if !s.ready then
    ⟨{ s with modalContent := some initMsgSave }, [initMsgSave], 0⟩
  else if (jsTrim s.cardText).isEmpty then
    ⟨{ s with modalContent := some cardEmptyMsg }, [cardEmptyMsg], 0⟩
  else
    match w with
    | WriteResult.success =>
        ⟨{ s with cards := s.cards ++ [⟨s.cardText, s.cardBgColor, now⟩],
                  modalContent := some cardSavedMsg,
                  cardText := "",
                  cardBgColor := whiteColor }, [cardSavedMsg], 1⟩
    | WriteResult.failure =>
        ⟨{ s with modalContent := some cardErrorMsg }, [cardErrorMsg], 1⟩

/-- `recordMood`: guard on init; write the entry, and on success set the
current-mood indicator and show the confirmation, on failure show the error
message and leave the indicator untouched. -/
def recordMood (mood : String) (now : Nat) (w : WriteResult) (s : AppState) : OpResult :=
  if !s.ready then
    ⟨{ s with modalContent := some initMsgMood }, [initMsgMood], 0⟩
  else
    match w with
    | WriteResult.success =>
        ⟨{ s with moods := s.moods ++ [⟨mood, now⟩],
                  currentMood := mood,
                  modalContent := some (moodRecordedMsg mood) }, [moodRecordedMsg mood], 1⟩
    | WriteResult.failure =>
        ⟨{ s with modalContent := some moodErrorMsg }, [moodErrorMsg], 1⟩

/-- `saveStartDate`: guard on init; reject when `!startDate`; else overwrite
the `daysCounter/data` singleton, and on success show the confirmation
(keeping the selected date), on failure show the error message and leave the
singleton and the selection untouched. -/
def saveStartDate (w : WriteResult) (s : AppState) : OpResult :=
  if !s.ready then
    ⟨{ s with modalContent := some initMsgDate }, [initMsgDate], 0⟩
  else if !(jsTruthy s.startDate) then
    ⟨{ s with modalContent := some selectDateMsg }, [selectDateMsg], 0⟩
  else
    match w with
    | WriteResult.success =>
        ⟨{ s with daysCounterDoc := s.startDate,
                  modalContent := some dateSavedMsg }, [dateSavedMsg], 1⟩
    | WriteResult.failure =>
        ⟨{ s with modalContent := some dateErrorMsg }, [dateErrorMsg], 1⟩

/-- `handlePhotoUpload` after the file has been read to a data URI: guard on
init; write the photo, and on success show the confirmation, on failure show
the error message; the handler touches no input state. -/
def handlePhotoUpload (file : String) (now : Nat) (w : WriteResult) (s : AppState) : OpResult :=
  if !s.ready then
    ⟨{ s with modalContent := some initMsgPhoto }, [initMsgPhoto], 0⟩
  else
    match w with
    | WriteResult.success =>
        ⟨{ s with photos := s.photos ++ [⟨file, now⟩],
                  modalContent := some photoAddedMsg }, [photoAddedMsg], 1⟩
    | WriteResult.failure =>
        ⟨{ s with modalContent := some photoErrorMsg }, [photoErrorMsg], 1⟩

/-!  A uniform view of the six store-writing handlers. -/

/-- The six store-writing operations, with their event payloads. -/
inductive Op where
  | drawing
  | letter
  | card
  | mood (label : String)
  | daysDate
  | photo (file : String)
deriving DecidableEq, Repr

/-- Dispatch an operation to its handler. -/
def runOp (op : Op) (now : Nat) (w : WriteResult) (s : AppState) : OpResult :=
  match op with
  | Op.drawing => saveDrawing now w s
  | Op.letter => saveLetter now w s
  | Op.card => saveCard now w s
  | Op.mood label => recordMood label now w s
  | Op.daysDate => saveStartDate w s
  | Op.photo file => handlePhotoUpload file now w s

/-- Whether the operation's input passes its validation guard, so that a
store write is actually attempted (given the app is ready). -/
def inputValid (op : Op) (s : AppState) : Bool :=
  match op with
  | Op.drawing => true
  | Op.letter => !(jsTrim s.letterContent).isEmpty
  | Op.card => !(jsTrim s.cardText).isEmpty
  | Op.mood _ => true
  | Op.daysDate => jsTruthy s.startDate
  | Op.photo _ => true

/-- The error message each operation's `catch` branch shows. -/
def errMsgOf (op : Op) : String :=
  match op with
  | Op.drawing => drawingErrorMsg
  | Op.letter => letterErrorMsg
  | Op.card => cardErrorMsg
  | Op.mood _ => moodErrorMsg
  | Op.daysDate => dateErrorMsg
  | Op.photo _ => photoErrorMsg

/-!  Mood subscription ordering. -/

/-- Whether `a` is at least as new as `b` (timestamps descending). -/
def newerFirst (a b : MoodEntry) : Prop := b.timestamp ≤ a.timestamp

instance : DecidableRel newerFirst := fun a b => by
  unfold newerFirst; infer_instance

instance : IsTotal MoodEntry newerFirst :=
  ⟨fun a b => (le_total b.timestamp a.timestamp).imp id id⟩

instance : IsTrans MoodEntry newerFirst :=
  ⟨fun _ _ _ hab hbc => le_trans hbc hab⟩

/-- The mood subscription `query(userMoodsRef, orderBy('timestamp', 'desc'))`:
the store delivers the collection sorted newest-first by timestamp. -/
def moodsQueryDesc (entries : List MoodEntry) : List MoodEntry :=
  List.insertionSort newerFirst entries

/-- Run a sequence of mood button presses (label, server timestamp and write
outcome for each press) through `recordMood`. -/
def runMoodPresses (presses : List (String × Nat × WriteResult)) (s : AppState) : AppState :=
  presses.foldl (fun st p => (recordMood p.1 p.2.1 p.2.2 st).state) s

/-!  Concrete sample data for witness instantiations. -/

/-- A date string as entered in the date input. -/
def sampleDateStr : String := "2024-01-01"

/-- A canvas snapshot data URI. -/
def sampleDataUrl : String := "data:image/png;base64,AAAA"

/-- A nonempty letter text. -/
def sampleLetterText : String := "Oi Galo"

/-- A nonempty card text. -/
def sampleCardText : String := "Feliz aniversário!"

/-- A non-white card background. -/
def blackColor : String := "#000000"

/-- A mood label from the fixed set of mood buttons. -/
def sampleMoodLabel : String := "Feliz"

/-- A locally generated random identifier. -/
def sampleRandomId : String := "uuid-1234"

/-- An auth domain value. -/
def sampleAuthDomain : String := "galo.firebaseapp.com"

/-- A ready app state with empty letter and card inputs. -/
def sampleEmptyState : AppState :=
  ⟨true, blankCanvas, "", "", blackColor, "", none, [], [], [], [], none, [], [], none⟩

/-- A ready app state with populated inputs. -/
def sampleFilledState : AppState :=
  ⟨true, sampleDataUrl, sampleLetterText, sampleCardText, blackColor, "",
   some sampleDateStr, [], [], [], [], none, [], [], none⟩

/-- A ready app state whose letter and card inputs are whitespace only. -/
def sampleWhitespaceState : AppState :=
  ⟨true, blankCanvas, "   ", "\t  ", blackColor, "", none, [], [], [], [], none, [], [], none⟩

/-- The second card template (`Galo Doido`). -/
def galoTemplate : CardTemplate :=
  ⟨"Galo Doido", "Parabéns! Que a paixão pelo Galo te inspire sempre!", "#fcd34d"⟩

/-- A host-injected configuration lacking the API key. -/
def incompleteCfg : FirebaseConfig :=
  ⟨none, some sampleAuthDomain, none, none, none, none⟩

/-- An environment with no variables set. -/
def sampleEnv : EnvVars := ⟨none, none, none, none, none, none⟩

/-!  Helper lemmas. -/

/-- Ceiling division on naturals computes the ceiling of the exact
rational division, for a positive divisor. -/
theorem add_pred_div_eq_ceil (a b : Nat) (hb : 0 < b) :
    (a + (b - 1)) / b = ⌈(a : ℚ) / (b : ℚ)⌉₊ := by
  have hbq : (0 : ℚ) < (b : ℚ) := by exact_mod_cast hb
  have key : ∀ n : Nat, ((a + (b - 1)) / b ≤ n ↔ ⌈(a : ℚ) / (b : ℚ)⌉₊ ≤ n) := by
    intro n
    have h1 : (a + (b - 1)) / b ≤ n ↔ a ≤ b * n := by
      rw [Nat.div_le_iff_le_mul_add_pred hb]
      omega
    have h2 : ⌈(a : ℚ) / (b : ℚ)⌉₊ ≤ n ↔ a ≤ b * n := by
      rw [Nat.ceil_le, div_le_iff₀ hbq]
      constructor
      · intro h
        have h' : (a : ℚ) ≤ (b : ℚ) * (n : ℚ) := by rw [mul_comm]; exact h
        exact_mod_cast h'
      · intro h
        have h' : (a : ℚ) ≤ (b : ℚ) * (n : ℚ) := by exact_mod_cast h
        rw [mul_comm] at h'
        exact h'
    rw [h1, h2]
  exact le_antisymm ((key _).2 le_rfl) ((key _).1 le_rfl)

/-- Trimming the empty string yields the empty string. -/
theorem jsTrim_empty_isEmpty : (jsTrim ("")).isEmpty = true := rfl

/-- Trimming a string made only of whitespace yields the empty string. -/
theorem jsTrim_all_whitespace (t : String) (hw : ∀ c ∈ t.data, c.isWhitespace) :
    (jsTrim t).isEmpty = true := by
  have h0 : t.data.dropWhile Char.isWhitespace = [] := List.dropWhile_eq_nil_iff.2 hw
  unfold jsTrim
  rw [h0]
  rfl

/-!  Claim theorems. -/

/-- C1: for every stored start date, the derived `daysKnown` value equals the
ceiling of the absolute difference between today and the stored date measured
in whole days (partial days round up); with no stored date the derived value
is zero and the day-counter page renders the unset state, never a zero-days
count. -/
theorem days_counter_derived_value (todayMs : Int) :
    (∀ startMs : Int,
        daysKnownOf (some startMs) todayMs
          = ⌈(((todayMs - startMs).natAbs : ℚ)) / (msPerDay : ℚ)⌉₊) ∧
    daysKnownOf none todayMs = 0 ∧
    daysCounterDisplay none todayMs = DaysDisplay.unset ∧
    ∀ n : Nat, daysCounterDisplay none todayMs ≠ DaysDisplay.countShown n := by
  refine ⟨fun startMs => ?_, rfl, ?_, fun n => ?_⟩
  · exact add_pred_div_eq_ceil ((todayMs - startMs).natAbs) msPerDay (by norm_num [msPerDay])
  · simp [daysCounterDisplay, daysKnownOf]
  · simp [daysCounterDisplay, daysKnownOf]

/-- C2: saving an empty letter or an empty card adds no record, surfaces the
validation message, and leaves the input field contents unchanged. -/
theorem empty_submission_rejected (now : Nat) (w : WriteResult) (s : AppState)
    (hready : s.ready = true) (hl : s.letterContent = "") (hc : s.cardText = "") :
    ((runOp Op.letter now w s).state.letters = s.letters ∧
     (runOp Op.letter now w s).messages = [letterEmptyMsg] ∧
     (runOp Op.letter now w s).state.letterContent = s.letterContent) ∧
    ((runOp Op.card now w s).state.cards = s.cards ∧
     (runOp Op.card now w s).messages = [cardEmptyMsg] ∧
     (runOp Op.card now w s).state.cardText = s.cardText ∧
     (runOp Op.card now w s).state.cardBgColor = s.cardBgColor) := by
  simp [runOp, saveLetter, saveCard, hready, hl, hc, jsTrim_empty_isEmpty]

/-- Witness for C2 at a concrete ready state with empty inputs. -/
theorem empty_submission_rejected_witness :
    (runOp Op.letter 7 WriteResult.success sampleEmptyState).messages = [letterEmptyMsg] ∧
    (runOp Op.card 7 WriteResult.success sampleEmptyState).messages = [cardEmptyMsg] := by
  have h := empty_submission_rejected 7 WriteResult.success sampleEmptyState rfl rfl rfl
  exact ⟨h.1.2.1, h.2.2.1⟩

/-- C3: applying a card template sets the card text and the background color
exactly to the template's values, independent of any prior input state. -/
theorem card_template_overwrites (template : CardTemplate)
    (_hmem : template ∈ cardTemplates) (s : AppState) :
    (applyCardTemplate template s).cardText = template.text ∧
    (applyCardTemplate template s).cardBgColor = template.bgColor ∧
    ∀ s' : AppState,
      (applyCardTemplate template s).cardText = (applyCardTemplate template s').cardText ∧
      (applyCardTemplate template s).cardBgColor = (applyCardTemplate template s').cardBgColor := by
  exact ⟨rfl, rfl, fun s' => ⟨rfl, rfl⟩⟩

/-- Witness for C3 at the `Galo Doido` template over a populated state. -/
theorem card_template_overwrites_witness :
    (applyCardTemplate galoTemplate sampleFilledState).cardText = galoTemplate.text ∧
    (applyCardTemplate galoTemplate sampleFilledState).cardBgColor = galoTemplate.bgColor := by
  have h := card_template_overwrites galoTemplate (by decide) sampleFilledState
  exact ⟨h.1, h.2.1⟩

/-- C4: for any sequence of mood button presses from any starting state, the
mood history the subscription delivers (and the history view renders) is
ordered newest-first by timestamp, and is a permutation of the stored
entries. -/
theorem mood_history_newest_first (presses : List (String × Nat × WriteResult))
    (s : AppState) :
    List.Sorted newerFirst (moodsQueryDesc (runMoodPresses presses s).moods) ∧
    List.Perm (moodsQueryDesc (runMoodPresses presses s).moods)
      (runMoodPresses presses s).moods := by
  exact ⟨List.sorted_insertionSort newerFirst _, List.perm_insertionSort newerFirst _⟩

/-- C5: the startup configuration is resolved from the host-injected
configuration or from environment values; whenever the host-injected one is
present it is the one used (the environment is ignored); initialization
happens only when the resolved configuration carries a truthy API key and
auth domain, and an incomplete host-injected configuration yields the
blocking message instead of initialization. -/
theorem firebase_config_resolution :
    (∀ (cfg : FirebaseConfig) (pd pd' : Bool) (env env' : EnvVars),
        firebaseInit true (some cfg) pd env = firebaseInit true (some cfg) pd' env') ∧
    (∀ (wd : Bool) (hc : Option FirebaseConfig) (pd : Bool) (env : EnvVars)
        (cfg : FirebaseConfig),
        firebaseInit wd hc pd env = InitOutcome.initialized cfg →
          jsTruthy cfg.apiKey = true ∧ jsTruthy cfg.authDomain = true) ∧
    (∀ (cfg : FirebaseConfig) (pd : Bool) (env : EnvVars),
        (jsTruthy cfg.apiKey = false ∨ jsTruthy cfg.authDomain = false) →
          firebaseInit true (some cfg) pd env = InitOutcome.blocked configIncompleteMsg) := by
  refine ⟨fun cfg pd pd' env env' => rfl, ?_, ?_⟩
  · intro wd hc pd env cfg h
    unfold firebaseInit at h
    cases wd <;> cases hc <;> simp only [Option.getD] at h <;>
      (repeat' split at h) <;> simp_all
  · intro cfg pd env hbad
    rcases hbad with hb | hb <;> simp [firebaseInit, hb]

/-- Witness for C5: an incomplete host-injected configuration is blocked. -/
theorem firebase_config_resolution_witness :
    firebaseInit true (some incompleteCfg) false sampleEnv
      = InitOutcome.blocked configIncompleteMsg := by
  exact firebase_config_resolution.2.2 incompleteCfg false sampleEnv (Or.inl rfl)

/-- C6: when identity resolution fails (no previous session and sign-in
yields no identity), the auth callback falls back to the locally generated
random identifier as the user id, and still flags auth as ready so the UI
stays usable. -/
theorem auth_failure_random_fallback (currentUserUid : Option String)
    (randomId : String) (hfail : jsTruthy currentUserUid = false) :
    authCallbackResult none currentUserUid randomId = (randomId, true) := by
  simp [authCallbackResult, hfail]

/-- Witness for C6 at a concrete failed resolution. -/
theorem auth_failure_random_fallback_witness :
    authCallbackResult none none sampleRandomId = (sampleRandomId, true) := by
  exact auth_failure_random_fallback none sampleRandomId rfl

/-- C7: when a store write fails (any of the six operations), the failure is
surfaced exactly once via the blocking message dialog, exactly one write was
attempted (no retry), and the state is otherwise unchanged — canvas, text
fields, selected date and all store collections are preserved so the user
can retry manually. -/
theorem store_write_failure_handling (op : Op) (now : Nat) (s : AppState)
    (hready : s.ready = true) (hvalid : inputValid op s = true) :
    (runOp op now WriteResult.failure s).state
        = { s with modalContent := some (errMsgOf op) } ∧
    (runOp op now WriteResult.failure s).messages = [errMsgOf op] ∧
    (runOp op now WriteResult.failure s).writeAttempts = 1 := by
  cases op <;>
    simp_all [runOp, saveDrawing, saveLetter, saveCard, recordMood, saveStartDate,
      handlePhotoUpload, inputValid, errMsgOf]

/-- Witness for C7: a failed letter write at a concrete populated state. -/
theorem store_write_failure_handling_witness :
    (runOp Op.letter 9 WriteResult.failure sampleFilledState).messages
        = [errMsgOf Op.letter] ∧
    (runOp Op.letter 9 WriteResult.failure sampleFilledState).writeAttempts = 1 := by
  have h := store_write_failure_handling Op.letter 9 sampleFilledState rfl rfl
  exact ⟨h.2.1, h.2.2⟩

/-- C8: on every load the synthesized schedule has exactly three fixtures at
offsets +2, +5 and +10 days from today with hard-coded opponent, time, venue
and competition text; loading it changes only the local schedule state and
writes nothing to any store collection. -/
theorem game_schedule_shape (today : Int) (s : AppState) :
    (fetchGameSchedule today).length = 3 ∧
    (fetchGameSchedule today).map Game.date = [today + 2, today + 5, today + 10] ∧
    (fetchGameSchedule today).map Game.opponent = ["Cruzeiro", "Flamengo", "Grêmio"] ∧
    (fetchGameSchedule today).map Game.time = ["19:00", "21:30", "16:00"] ∧
    (fetchGameSchedule today).map Game.location = ["Mineirão", "Maracanã", "Arena MRV"] ∧
    (fetchGameSchedule today).map Game.competition
        = ["Campeonato Brasileiro", "Copa do Brasil", "Campeonato Brasileiro"] ∧
    (loadGameSchedule today s).drawings = s.drawings ∧
    (loadGameSchedule today s).letters = s.letters ∧
    (loadGameSchedule today s).cards = s.cards ∧
    (loadGameSchedule today s).moods = s.moods ∧
    (loadGameSchedule today s).daysCounterDoc = s.daysCounterDoc ∧
    (loadGameSchedule today s).photos = s.photos ∧
    (loadGameSchedule today s).gameSchedule = fetchGameSchedule today := by
  exact ⟨rfl, rfl, rfl, rfl, rfl, rfl, rfl, rfl, rfl, rfl, rfl, rfl, rfl⟩

/-- C9: after a successful card save the card input is reset to the fixed
default — empty text and white background — while the saved record keeps the
text and color it was saved with. -/
theorem card_save_success_resets (now : Nat) (s : AppState)
    (hready : s.ready = true) (hvalid : inputValid Op.card s = true) :
    (runOp Op.card now WriteResult.success s).state.cardText = "" ∧
    (runOp Op.card now WriteResult.success s).state.cardBgColor = whiteColor ∧
    (runOp Op.card now WriteResult.success s).state.cards
        = s.cards ++ [⟨s.cardText, s.cardBgColor, now⟩] := by
  simp_all [runOp, saveCard, inputValid]

/-- Witness for C9 at a concrete state with a black background. -/
theorem card_save_success_resets_witness :
    (runOp Op.card 11 WriteResult.success sampleFilledState).state.cardText = "" ∧
    (runOp Op.card 11 WriteResult.success sampleFilledState).state.cardBgColor
        = whiteColor := by
  have h := card_save_success_resets 11 sampleFilledState rfl rfl
  exact ⟨h.1, h.2.1⟩

/-- C10: a letter or card whose text is only whitespace is rejected exactly
like empty text — no record is added and the same validation message is
surfaced — because rejection is decided by the trimmed text being empty. -/
theorem whitespace_only_rejected (now : Nat) (w : WriteResult) (s : AppState)
    (hready : s.ready = true)
    (hlw : ∀ c ∈ s.letterContent.data, c.isWhitespace)
    (hcw : ∀ c ∈ s.cardText.data, c.isWhitespace) :
    ((runOp Op.letter now w s).state.letters = s.letters ∧
     (runOp Op.letter now w s).messages = [letterEmptyMsg] ∧
     (runOp Op.letter now w s).state.letterContent = s.letterContent) ∧
    ((runOp Op.card now w s).state.cards = s.cards ∧
     (runOp Op.card now w s).messages = [cardEmptyMsg] ∧
     (runOp Op.card now w s).state.cardText = s.cardText) := by
  have h1 := jsTrim_all_whitespace _ hlw
  have h2 := jsTrim_all_whitespace _ hcw
  simp [runOp, saveLetter, saveCard, hready, h1, h2]

/-- Witness for C10 at a concrete state with whitespace-only inputs. -/
theorem whitespace_only_rejected_witness :
    (runOp Op.letter 3 WriteResult.success sampleWhitespaceState).messages
        = [letterEmptyMsg] ∧
    (runOp Op.card 3 WriteResult.success sampleWhitespaceState).messages
        = [cardEmptyMsg] := by
  have h := whitespace_only_rejected 3 WriteResult.success sampleWhitespaceState rfl
    (by decide) (by decide)
  exact ⟨h.1.2.1, h.2.2.1⟩
